import Mathlib

/-!
# Wenet packet protocol — shallow embedding and verification

This file embeds the core of the Wenet telemetry/imagery downlink
(`tx/PacketTX.py`, `rx/WenetPackets.py`, `rx/rx_ssdv.py`) in Lean 4 and
proves properties of the embedded definitions.

Bytes are modelled as `Nat` values; byte strings as `List Nat`.
Machine arithmetic is made explicit with `% 2^w` / masking where the
Python code relies on fixed-width behaviour.  Fallible Python code
(functions that return an `{'error': ...}` dictionary, or raise) is
modelled with explicit result types.
-/

attribute [local semireducible] Rat.mul Rat.inv Rat.add Rat.sub

namespace Wenet

/-! ## CRC-16/CCITT-FALSE (`crcmod.predefined.mkCrcFun('crc-ccitt-false')`)

The transmitter computes its frame checksum with `crcmod`'s predefined
`crc-ccitt-false` function: a 16-bit CRC with initial value `0xFFFF`,
polynomial `0x1021`, MSB-first processing and no input/output
reflection, no final XOR.  We embed that algorithm bit by bit. -/

/-- One byte step of CRC-16/CCITT-FALSE: XOR the byte into the high
byte of the register, then run eight MSB-first polynomial steps. -/
def crc16_update (crc b : Nat) : Nat :=
  let crc := Nat.xor crc (b * 256)
  (List.range 8).foldl
    (fun c _ =>
      if Nat.land c 0x8000 ≠ 0 then Nat.land (Nat.xor (c * 2) 0x1021) 0xFFFF
      else Nat.land (c * 2) 0xFFFF)
    crc

/-- CRC-16/CCITT-FALSE of a byte string: initial value `0xFFFF`,
polynomial `0x1021`, no reflection, no final XOR. -/
def crc16 (data : List Nat) : Nat :=
  data.foldl crc16_update 0xFFFF

/-- The ASCII bytes of the string "123456789", the standard CRC check input. -/
def crcCheckInput : List Nat := [0x31, 0x32, 0x33, 0x34, 0x35, 0x36, 0x37, 0x38, 0x39]

set_option maxRecDepth 4000 in
/-- Sanity check: the embedded CRC matches the published CRC-16/CCITT-FALSE
check value 0x29B1 on the standard input "123456789". -/
theorem crc16_check_value : crc16 crcCheckInput = 0x29B1 := by decide

/-! ## Framer (`tx/PacketTX.py`, class `PacketTX`)

Class constants of `PacketTX`.  The LDPC parity encoder (`ldpc_encode`,
imported from an external module that is not part of this repository's
core sources) is treated as a parameter: `frame_packet` and the
transmit state are parametrised by an arbitrary `parity` function. -/

/-- `PacketTX.unique_word = b"\xab\xcd\xef\x01"`. -/
def unique_word : List Nat := [0xAB, 0xCD, 0xEF, 0x01]

/-- `PacketTX.preamble = b"\x55"*16`. -/
def preamble : List Nat := List.replicate 16 0x55

/-- `PacketTX.idle_sequence = b"\x56"*256`. -/
def idle_sequence : List Nat := List.replicate 256 0x56

/-- `PacketTX.payload_length` (constructor default, used by all callers). -/
def payload_length : Nat := 256

/-- `PacketTX.frame_packet(packet, fec)`: truncate the payload to
`payload_length` bytes if longer, pad it with `0x55` bytes if shorter,
append the little-endian CRC-16, and if `fec` also the LDPC parity of
payload+CRC; prepend preamble and unique word.  `parity` stands for the
external `ldpc_encode`. -/
def frame_packet (parity : List Nat → List Nat) (packet : List Nat)
    (fec : Bool) : List Nat :=
  let packet := if packet.length > payload_length
    then packet.take payload_length else packet
  let packet := if packet.length < payload_length
    then packet ++ List.replicate (payload_length - packet.length) 0x55
    else packet
  let crc := [crc16 packet % 256, crc16 packet / 256 % 256]
  if fec then
    preamble ++ unique_word ++ packet ++ crc ++ parity (packet ++ crc)
  else
    preamble ++ unique_word ++ packet ++ crc

/-- Spec-side payload normalisation, written from the claim's words:
`p` truncated to 256 bytes when longer, padded with `0x55` to exactly
256 bytes when shorter. -/
def spec_normalize (p : List Nat) : List Nat :=
  if p.length > 256 then p.take 256
  else p ++ List.replicate (256 - p.length) 0x55

/-- Spec-side little-endian 2-byte encoding of a 16-bit value. -/
def spec_le16 (v : Nat) : List Nat := [v % 256, v / 256 % 256]

/-! ## Transmit scheduler (`PacketTX.tx_thread`)

The two queues `telemetry_queue` and `ssdv_queue` are FIFO; one
iteration of `tx_thread` transmits the head of the telemetry queue if
non-empty, else the head of the image (ssdv) queue if non-empty, else
the pre-framed `idle_message` computed in `__init__`. -/

/-- The queue/idle state of a `PacketTX` instance that the transmit
loop reads: the two FIFO transmit queues and the pre-framed idle
message. -/
structure PacketTXState where
  telemetry_queue : List (List Nat)
  ssdv_queue : List (List Nat)
  idle_message : List Nat
  deriving DecidableEq

/-- `PacketTX.__init__`: both queues start empty and
`idle_message = frame_packet(idle_sequence, fec)`. -/
def PacketTX_init (parity : List Nat → List Nat) (fec : Bool) : PacketTXState :=
  { telemetry_queue := []
    ssdv_queue := []
    idle_message := frame_packet parity idle_sequence fec }

/-- One iteration of `PacketTX.tx_thread`: returns the packet passed to
`radio.transmit_packet` together with the successor state. -/
def tx_step (s : PacketTXState) : List Nat × PacketTXState :=
  match s.telemetry_queue with
  | p :: rest => (p, { s with telemetry_queue := rest })
  | [] =>
    match s.ssdv_queue with
    | p :: rest => (p, { s with ssdv_queue := rest })
    | [] => (s.idle_message, s)

/-- The payload-normalisation step inside `frame_packet` (truncate if
longer than 256, pad with `0x55` if shorter) agrees with the spec-side
`spec_normalize`. -/
lemma frame_normalize_eq (p : List Nat) :
    (if (if p.length > payload_length then p.take payload_length else p).length
          < payload_length
      then (if p.length > payload_length then p.take payload_length else p)
        ++ List.replicate
            (payload_length
              - (if p.length > payload_length then p.take payload_length
                  else p).length) 0x55
      else (if p.length > payload_length then p.take payload_length else p))
    = spec_normalize p := by
  simp only [payload_length, spec_normalize]
  rcases Nat.lt_trichotomy p.length 256 with h | h | h
  · have h1 : ¬(p.length > 256) := by omega
    rw [if_neg h1, if_pos h, if_neg h1]
  · have h1 : ¬(p.length > 256) := by omega
    rw [if_neg h1, if_neg (by omega), h, Nat.sub_self, List.replicate_zero,
      List.append_nil, if_neg (by omega)]
  · have h1 : p.length > 256 := h
    rw [if_pos h1, if_neg (by simp [List.length_take]; omega), if_pos h1]

/-- C1: `frame_packet(p, fec)` is total and returns exactly
preamble (16 bytes of `0x55`) ++ sync word `AB CD EF 01` ++ P ++ C ++
(parity iff fec), where P is `p` truncated to 256 bytes when longer and
padded with `0x55` to exactly 256 bytes when shorter, C is the 2-byte
little-endian CRC-16/CCITT-FALSE checksum of P, and the parity block,
when present, is computed over P ++ C. -/
theorem frame_packet_wire_format (parity : List Nat → List Nat)
    (p : List Nat) (fec : Bool) :
    frame_packet parity p fec =
      preamble ++ unique_word ++ spec_normalize p
        ++ spec_le16 (crc16 (spec_normalize p))
        ++ (if fec
            then parity (spec_normalize p ++ spec_le16 (crc16 (spec_normalize p)))
            else [])
    ∧ (spec_normalize p).length = 256
    ∧ preamble = List.replicate 16 0x55
    ∧ unique_word = [0xAB, 0xCD, 0xEF, 0x01] := by
  refine ⟨?_, ?_, rfl, rfl⟩
  · simp only [frame_packet]
    rw [frame_normalize_eq]
    cases fec <;> simp [spec_le16]
  · simp only [spec_normalize]
    split
    · simp [List.length_take]; omega
    · simp [List.length_replicate]; omega

/-- C2: in every iteration of the transmit loop, the transmitted packet
is the head of the telemetry queue if that queue is non-empty, else the
head of the image queue if non-empty, else the pre-framed idle filler
`frame_packet(0x56 × 256, fec)`; consequently an image-queue entry is
never transmitted in a cycle in which the telemetry queue is non-empty. -/
theorem tx_step_priority (parity : List Nat → List Nat) (fec : Bool)
    (telem img : List (List Nat)) :
    (telem ≠ [] →
        (tx_step ⟨telem, img, frame_packet parity idle_sequence fec⟩).1
            = telem.headI
        ∧ (tx_step ⟨telem, img, frame_packet parity idle_sequence fec⟩).2.ssdv_queue
            = img)
    ∧ (telem = [] → img ≠ [] →
        (tx_step ⟨telem, img, frame_packet parity idle_sequence fec⟩).1
            = img.headI)
    ∧ (telem = [] → img = [] →
        (tx_step ⟨telem, img, frame_packet parity idle_sequence fec⟩).1
            = frame_packet parity idle_sequence fec)
    ∧ idle_sequence = List.replicate 256 0x56 := by
  refine ⟨fun ht => ?_, fun ht hi => ?_, fun ht hi => ?_, rfl⟩
  · cases telem with
    | nil => exact absurd rfl ht
    | cons t rest => exact ⟨rfl, rfl⟩
  · subst ht
    cases img with
    | nil => exact absurd rfl hi
    | cons i rest => rfl
  · subst ht; subst hi; rfl

set_option maxRecDepth 4000 in
/-- Witness for C2 at a concrete state: one pending telemetry entry
`[1]` and one pending image entry `[2]`; the transmitted packet is the
telemetry entry. -/
theorem tx_step_priority_witness :
    (tx_step ⟨[[1]], [[2]], frame_packet (fun _ => []) idle_sequence false⟩).1
      = [1] :=
  ((tx_step_priority (fun _ => []) false [[1]] [[2]]).1 (List.cons_ne_nil _ _)).1

/-! ## Image reassembler (`rx/rx_ssdv.py`, main loop, SSDV branch)

The receiver groups consecutive SSDV (image-chunk) packets by the key
`(callsign, image_id)` extracted with `ssdv_packet_info`.  The mutable
globals `current_image`, `current_callsign`, `current_packet_count` and
the contents of the temporary file `rxtemp.bin` form the state.  The
external `ssdv` binary invoked on a flush (and on partial-update
previews) is modelled by a `decode_ok` predicate on the buffered data;
`partialupdate` is the `--partialupdate` option (default 0). -/

/-- The fields of an incoming SSDV packet that the reassembler reads:
the decoded callsign, the image id byte, and the raw 256-byte packet
data written to the temporary file. -/
structure SSDVChunk where
  callsign : String
  image_id : Nat
  data : List Nat
  deriving DecidableEq

/-- Reassembler state: `current_image` (initially `-1`),
`current_callsign` (initially `""`), `current_packet_count` (initially
0), and the written contents of `rxtemp.bin` as the list of packets
written, in order. -/
structure SSDVState where
  current_image : Int
  current_callsign : String
  current_packet_count : Nat
  buffer : List (List Nat)
  deriving DecidableEq

/-- The reassembler's initial state (`current_image = -1`,
`current_callsign = ""`, `current_packet_count = 0`, empty file). -/
def SSDVState.init : SSDVState := ⟨-1, "", 0, []⟩

/-- Externally visible effects of one reassembler step.
`flush buffer ok`: the buffer was closed and passed to the external
`ssdv` decoder, which succeeded (`ok = true`: the `.bin` file is kept
and a new-image GUI event fires) or failed (`ok = false`: an error is
logged, nothing else happens).  `preview buffer ok`: a non-destructive
partial-update decode of the current buffer. -/
inductive SSDVEvent where
  | flush (buffer : List (List Nat)) (ok : Bool)
  | preview (buffer : List (List Nat)) (ok : Bool)
  deriving DecidableEq

/-- `true` exactly on `flush` events. -/
def SSDVEvent.isFlush : SSDVEvent → Bool
  | .flush _ _ => true
  | .preview _ _ => false

/-- One iteration of the SSDV branch of the `rx_ssdv.py` main loop on
an image-chunk packet: on a key change (`image_id` or `callsign`
differs from the current accumulator), flush the buffer iff
`current_packet_count > 0`, then start a fresh accumulator seeded with
the arriving chunk; on a key match, append the chunk and increment the
count, emitting a preview when the partial-update period divides the
new count. -/
def ssdv_step (decode_ok : List (List Nat) → Bool) (partialupdate : Nat)
    (s : SSDVState) (c : SSDVChunk) : SSDVState × List SSDVEvent :=
  if (c.image_id : Int) ≠ s.current_image ∨ c.callsign ≠ s.current_callsign then
    (⟨(c.image_id : Int), c.callsign, 1, [c.data]⟩,
      if s.current_packet_count > 0
      then [.flush s.buffer (decode_ok s.buffer)]
      else [])
  else
    ({ s with
        buffer := s.buffer ++ [c.data]
        current_packet_count := s.current_packet_count + 1 },
      if partialupdate ≠ 0 ∧ (s.current_packet_count + 1) % partialupdate = 0
      then [.preview (s.buffer ++ [c.data]) (decode_ok (s.buffer ++ [c.data]))]
      else [])

/-- Run the reassembler over a chunk sequence, accumulating emitted
events in order. -/
def ssdv_run (decode_ok : List (List Nat) → Bool) (partialupdate : Nat)
    (s : SSDVState) (chunks : List SSDVChunk) : SSDVState × List SSDVEvent :=
  chunks.foldl
    (fun acc c =>
      let r := ssdv_step decode_ok partialupdate acc.1 c
      (r.1, acc.2 ++ r.2))
    (s, [])

/-- The chunk sequence of the reassembler test scenario: 8 chunks with
key (callsign "A", image 1), then 4 chunks with key ("B", 1), with
distinct payloads recording arrival order. -/
def c3_chunks : List SSDVChunk :=
  [⟨"A", 1, [0]⟩, ⟨"A", 1, [1]⟩, ⟨"A", 1, [2]⟩, ⟨"A", 1, [3]⟩, ⟨"A", 1, [4]⟩,
    ⟨"A", 1, [5]⟩, ⟨"A", 1, [6]⟩, ⟨"A", 1, [7]⟩,
    ⟨"B", 1, [100]⟩, ⟨"B", 1, [101]⟩, ⟨"B", 1, [102]⟩, ⟨"B", 1, [103]⟩]

/-- The payloads of the 8 ("A",1) chunks, in arrival order. -/
def c3_bufA : List (List Nat) := [[0], [1], [2], [3], [4], [5], [6], [7]]

/-- The payloads of the 4 ("B",1) chunks, in arrival order. -/
def c3_bufB : List (List Nat) := [[100], [101], [102], [103]]

set_option maxHeartbeats 1000000 in
/-- C3: feeding `[(A,1)×5, (A,1)×3, (B,1)×4]` to the reassembler causes
exactly one flush, at the first (B,1) chunk; the flushed buffer holds
exactly the 8 (A,1) chunks in arrival order; afterwards the accumulator
has key (B,1), holds the 4 (B,1) chunks in order, and has count 4.
Chunks matching the current key only append and increment the count; a
flush happens only on a key change with count > 0. -/
theorem ssdv_reassembler_scenario (decode_ok : List (List Nat) → Bool) :
    ssdv_run decode_ok 0 SSDVState.init c3_chunks
        = (⟨1, "B", 4, c3_bufB⟩, [.flush c3_bufA (decode_ok c3_bufA)])
    ∧ c3_bufA = [[0], [1], [2], [3], [4], [5], [6], [7]]
    ∧ c3_bufB = [[100], [101], [102], [103]]
    ∧ (∀ s : SSDVState, ∀ c : SSDVChunk,
        (c.image_id : Int) = s.current_image → c.callsign = s.current_callsign →
        (ssdv_step decode_ok 0 s c).1
            = { s with
                buffer := s.buffer ++ [c.data]
                current_packet_count := s.current_packet_count + 1 }
        ∧ (ssdv_step decode_ok 0 s c).2 = [])
    ∧ (∀ pu : Nat, ∀ s : SSDVState, ∀ c : SSDVChunk,
        (ssdv_step decode_ok pu s c).2.any SSDVEvent.isFlush = true →
        ((c.image_id : Int) ≠ s.current_image ∨ c.callsign ≠ s.current_callsign)
        ∧ 0 < s.current_packet_count) := by
  refine ⟨?_, rfl, rfl, ?_, ?_⟩
  · simp [ssdv_run, c3_chunks, ssdv_step, SSDVState.init, c3_bufA, c3_bufB]
  · intro s c h1 h2
    have hk : ¬((c.image_id : Int) ≠ s.current_image
        ∨ c.callsign ≠ s.current_callsign) := by simp [h1, h2]
    constructor <;> simp [ssdv_step, hk]
  · intro pu s c h
    by_cases hk : (c.image_id : Int) ≠ s.current_image
        ∨ c.callsign ≠ s.current_callsign
    · by_cases hc : 0 < s.current_packet_count
      · exact ⟨hk, hc⟩
      · exfalso
        simp [ssdv_step, hk, hc] at h
    · exfalso
      simp only [ssdv_step, if_neg hk] at h
      by_cases hp : pu ≠ 0 ∧ (s.current_packet_count + 1) % pu = 0 <;>
        simp [hp, SSDVEvent.isFlush] at h

/-- Witness for C3: with an always-succeeding external decoder, the
scenario run flushes once with the 8 (A,1) payloads and ends holding
the 4 (B,1) payloads; a matching chunk appends; a key-change flush
input indeed satisfies the key-change and count conditions. -/
theorem ssdv_reassembler_scenario_witness :
    ssdv_run (fun _ => true) 0 SSDVState.init c3_chunks
        = (⟨1, "B", 4, c3_bufB⟩, [.flush c3_bufA true])
    ∧ (ssdv_step (fun _ => true) 0 ⟨1, "A", 2, [[9]]⟩ ⟨"A", 1, [7]⟩).1
        = ⟨1, "A", 3, [[9], [7]]⟩
    ∧ (((1 : Nat) : Int) ≠ (1 : Int) ∨ "B" ≠ "A")
    ∧ 0 < 2 := by
  have h := ssdv_reassembler_scenario (fun _ => true)
  refine ⟨h.1, (h.2.2.2.1 ⟨1, "A", 2, [[9]]⟩ ⟨"A", 1, [7]⟩ rfl rfl).1, ?_⟩
  exact h.2.2.2.2 0 ⟨1, "A", 2, [[9]]⟩ ⟨"B", 1, [7]⟩ (by decide)

/-- C8: when a key-change flush invokes the external decoder and the
decoder fails, the failure is reported as a single flush event (no
retry), and the state is reset exactly as in the success case: key set
to the arriving chunk's (callsign, image id), count 1, buffer holding
only the arriving chunk. -/
theorem ssdv_flush_failure_resets (decode_ok : List (List Nat) → Bool)
    (pu : Nat) (s : SSDVState) (c : SSDVChunk)
    (hkey : (c.image_id : Int) ≠ s.current_image
      ∨ c.callsign ≠ s.current_callsign)
    (hcount : 0 < s.current_packet_count)
    (hfail : decode_ok s.buffer = false) :
    (ssdv_step decode_ok pu s c).1
        = ⟨(c.image_id : Int), c.callsign, 1, [c.data]⟩
    ∧ (ssdv_step decode_ok pu s c).2 = [.flush s.buffer false]
    ∧ (ssdv_step decode_ok pu s c).2.countP (fun e => e.isFlush) = 1
    ∧ ∀ ok2 : List (List Nat) → Bool,
        (ssdv_step ok2 pu s c).1 = (ssdv_step decode_ok pu s c).1 := by
  refine ⟨?_, ?_, ?_, ?_⟩
  · simp [ssdv_step, hkey]
  · simp [ssdv_step, hkey, hcount, hfail]
  · simp [ssdv_step, hkey, hcount, hfail, SSDVEvent.isFlush]
  · intro ok2
    simp [ssdv_step, hkey]

/-- Witness for C8: a failing decode on a key change (callsign "A" → "B")
still resets the accumulator to the arriving chunk and reports exactly
one flush event carrying the failure. -/
theorem ssdv_flush_failure_resets_witness :
    (ssdv_step (fun _ => false) 0 ⟨1, "A", 2, [[9], [8]]⟩ ⟨"B", 1, [7]⟩).1
        = ⟨1, "B", 1, [[7]]⟩
    ∧ (ssdv_step (fun _ => false) 0 ⟨1, "A", 2, [[9], [8]]⟩ ⟨"B", 1, [7]⟩).2
        = [.flush [[9], [8]] false] := by
  have h := ssdv_flush_failure_resets (fun _ => false) 0
    ⟨1, "A", 2, [[9], [8]]⟩ ⟨"B", 1, [7]⟩ (by decide) (by decide) rfl
  exact ⟨h.1, h.2.1⟩

/-! ## Packet classification and simple decoders (`rx/WenetPackets.py`) -/

/-- Result of a Wenet decode function: either a structured record, or
the `{'error': msg}` dictionary the Python decoders return on failure. -/
inductive DecodeResult (α : Type) where
  | ok (val : α)
  | err (msg : String)
  deriving DecidableEq

/-- `decode_packet_type(packet)`: returns `packet[0]`.  The Python
expression raises `IndexError` on an empty input; the failure is
modelled as `none`. -/
def decode_packet_type (packet : List Nat) : Option Nat :=
  packet.head?

/-- C9: `decode_packet_type` returns the first byte of every non-empty
input; on the empty byte sequence the Python code raises `IndexError`
(modelled as `none`) — there is no "unknown type" or decode-error
outcome for an empty packet. -/
theorem decode_packet_type_empty_raises (p : List Nat) :
    (p ≠ [] → decode_packet_type p = some p.headI)
    ∧ decode_packet_type [] = (none : Option Nat) := by
  refine ⟨fun h => ?_, rfl⟩
  cases p with
  | nil => exact absurd rfl h
  | cons b rest => rfl

/-- Witness for C9: on the one-byte packet `[0x55]` the classifier
returns `0x55`. -/
theorem decode_packet_type_empty_raises_witness :
    decode_packet_type [0x55] = some 0x55 :=
  (decode_packet_type_empty_raises [0x55]).1 (List.cons_ne_nil _ _)

/-! ## SSDV callsign decoding (`ssdv_decode_callsign`) -/

/-- `_ssdv_callsign_alphabet = '-0123456789---ABCDEFGHIJKLMNOPQRSTUVWXYZ'`. -/
def ssdv_callsign_alphabet : String := "-0123456789---ABCDEFGHIJKLMNOPQRSTUVWXYZ"

/-- The `while code:` loop of `ssdv_decode_callsign`, with explicit
fuel (`code` strictly decreases through `code // 40`, so an initial
fuel of `code` always suffices — see `ssdv_decode_callsign_code`). -/
def ssdv_decode_callsign_loop (fuel code : Nat) : List Char :=
  match fuel with
  | 0 => []
  | fuel + 1 =>
    if code = 0 then []
    else ssdv_callsign_alphabet.toList.getD (code % 40) '?'
        :: ssdv_decode_callsign_loop fuel (code / 40)

/-- The character list produced by `ssdv_decode_callsign` from the
unpacked 32-bit code. -/
def ssdv_decode_callsign_code (code : Nat) : List Char :=
  ssdv_decode_callsign_loop code code

/-- `ssdv_decode_callsign(code)`: unpack the 4 input bytes as a
big-endian integer (`struct.unpack('>I', ...)`), then repeatedly index
the alphabet with `code % 40` and divide by 40 while the code is
non-zero. -/
def ssdv_decode_callsign (bytes : List Nat) : String :=
  String.mk (ssdv_decode_callsign_code
    (bytes.foldl (fun a b => a * 256 + b) 0))

/-- Modelled from the spec: no callsign *encoder* exists in this
repository; the spec's "re-encoding (if implemented) round-trips"
refers to the inverse of the documented base-40 scheme, i.e. each
character contributes its (first) index in the alphabet as a base-40
digit. -/
def ssdv_encode_callsign (s : String) : Nat :=
  s.toList.foldr
    (fun c acc => acc * 40 + ssdv_callsign_alphabet.toList.indexOf c) 0

/-- The loop result does not depend on the fuel once the fuel is at
least the code. -/
lemma ssdv_decode_callsign_loop_fuel (fuel fuel2 code : Nat)
    (h : code ≤ fuel) (h2 : code ≤ fuel2) :
    ssdv_decode_callsign_loop fuel code = ssdv_decode_callsign_loop fuel2 code := by
  induction fuel generalizing fuel2 code with
  | zero =>
    interval_cases code
    cases fuel2 <;> simp [ssdv_decode_callsign_loop]
  | succ fuel ih =>
    cases fuel2 with
    | zero =>
      interval_cases code
      simp [ssdv_decode_callsign_loop]
    | succ fuel2 =>
      by_cases hc : code = 0
      · simp [ssdv_decode_callsign_loop, hc]
      · have hlt : code / 40 < code := Nat.div_lt_self (Nat.pos_of_ne_zero hc) (by norm_num)
        simp only [ssdv_decode_callsign_loop, if_neg hc]
        rw [ih fuel2 (code / 40) (by omega) (by omega)]

/-- Unfolding equation of `ssdv_decode_callsign_code`, matching the
Python `while code:` loop. -/
lemma ssdv_decode_callsign_code_eq (n : Nat) :
    ssdv_decode_callsign_code n
      = if n = 0 then []
        else ssdv_callsign_alphabet.toList.getD (n % 40) '?'
            :: ssdv_decode_callsign_code (n / 40) := by
  unfold ssdv_decode_callsign_code
  by_cases h : n = 0
  · subst h
    simp [ssdv_decode_callsign_loop]
  · obtain ⟨m, rfl⟩ := Nat.exists_eq_succ_of_ne_zero h
    simp only [ssdv_decode_callsign_loop, if_neg h]
    congr 1
    exact ssdv_decode_callsign_loop_fuel m ((m + 1) / 40) ((m + 1) / 40)
      (by omega) (le_refl _)

/-- The k-th emitted character is the alphabet entry at index
`(n / 40^k) % 40`. -/
lemma ssdv_decode_callsign_code_getD (n : Nat) :
    ∀ k, k < (ssdv_decode_callsign_code n).length →
      (ssdv_decode_callsign_code n).getD k '?'
        = ssdv_callsign_alphabet.toList.getD ((n / 40 ^ k) % 40) '?' := by
  induction n using Nat.strong_induction_on with
  | _ n ih =>
    intro k hk
    rw [ssdv_decode_callsign_code_eq] at hk ⊢
    by_cases h : n = 0
    · simp [h] at hk
    · rw [if_neg h] at hk ⊢
      cases k with
      | zero => simp
      | succ k =>
        simp only [List.getD_cons_succ]
        rw [ih (n / 40) (Nat.div_lt_self (Nat.pos_of_ne_zero h) (by norm_num)) k
          (by simp only [List.length_cons] at hk; omega)]
        rw [Nat.div_div_eq_div_mul, ← pow_succ']

/-- A character is emitted at position k exactly while the remaining
quotient `n / 40^k` is non-zero. -/
lemma ssdv_decode_callsign_code_length (n : Nat) :
    ∀ k, k < (ssdv_decode_callsign_code n).length ↔ 0 < n / 40 ^ k := by
  induction n using Nat.strong_induction_on with
  | _ n ih =>
    intro k
    rw [ssdv_decode_callsign_code_eq]
    by_cases h : n = 0
    · simp [h, Nat.zero_div]
    · rw [if_neg h]
      cases k with
      | zero => simp [Nat.pos_of_ne_zero h]
      | succ k =>
        simp only [List.length_cons, Nat.succ_lt_succ_iff]
        rw [ih (n / 40) (Nat.div_lt_self (Nat.pos_of_ne_zero h) (by norm_num)) k,
          Nat.div_div_eq_div_mul, ← pow_succ']

/-- For every alphabet index other than the duplicated `'-'` slots 12
and 13, looking the character back up returns the same index. -/
lemma ssdv_alphabet_index_round :
    ∀ d, d < 40 → d ≠ 11 → d ≠ 12 → d ≠ 13 →
      ssdv_callsign_alphabet.toList.indexOf
          (ssdv_callsign_alphabet.toList.getD d '?') = d := by decide

/-- Base-40 re-encoding inverts the decoding loop whenever no base-40
digit of `n` hits the duplicated alphabet slots 11, 12 and 13. -/
lemma ssdv_encode_decode_code (n : Nat)
    (h : ∀ k, (n / 40 ^ k) % 40 ≠ 11 ∧ (n / 40 ^ k) % 40 ≠ 12 ∧ (n / 40 ^ k) % 40 ≠ 13) :
    (ssdv_decode_callsign_code n).foldr
        (fun c acc => acc * 40 + ssdv_callsign_alphabet.toList.indexOf c) 0
      = n := by
  induction n using Nat.strong_induction_on with
  | _ n ih =>
    rw [ssdv_decode_callsign_code_eq]
    by_cases hn : n = 0
    · simp [hn]
    · rw [if_neg hn]
      simp only [List.foldr_cons]
      rw [ih (n / 40) (Nat.div_lt_self (Nat.pos_of_ne_zero hn) (by norm_num))
        (fun k => by
          have hk := h (k + 1)
          rw [pow_succ', ← Nat.div_div_eq_div_mul] at hk
          exact hk)]
      have h0 := h 0
      rw [pow_zero, Nat.div_one] at h0
      rw [ssdv_alphabet_index_round (n % 40) (Nat.mod_lt _ (by norm_num))
        h0.1 h0.2.1 h0.2.2]
      omega

/-- C7 counterexample: the 4-byte field `[0,0,0,12]` (the big-endian
integer 12) decodes to `"-"`, which re-encodes under the base-40 scheme
to 0, not to the original integer 12 — the round-trip half of the claim
fails as universally stated, because alphabet indices 0, 12 and 13 all
hold `'-'`. -/
theorem ssdv_callsign_roundtrip_cex :
    ssdv_decode_callsign [0, 0, 0, 12] = "-"
    ∧ ssdv_encode_callsign (ssdv_decode_callsign [0, 0, 0, 12]) = 0
    ∧ (0 : Nat) ≠ 12 := by decide

/-- C7 (amended): for the 4-byte field interpreted as the big-endian
integer n, `ssdv_decode_callsign` returns the string whose k-th
character is the alphabet entry at index `(n / 40^k) % 40`, characters
being emitted exactly while the remaining quotient is non-zero; and
re-encoding recovers n provided no base-40 digit of n is 11, 12 or 13 (the
duplicated `'-'` alphabet slots, unreachable from real callsigns). -/
theorem ssdv_callsign_decode_amended (b : List Nat) (n : Nat)
    (hb : b.foldl (fun a x => a * 256 + x) 0 = n) :
    (ssdv_decode_callsign b).toList = ssdv_decode_callsign_code n
    ∧ (∀ k, k < (ssdv_decode_callsign_code n).length →
        (ssdv_decode_callsign_code n).getD k '?'
          = ssdv_callsign_alphabet.toList.getD ((n / 40 ^ k) % 40) '?')
    ∧ (∀ k, k < (ssdv_decode_callsign_code n).length ↔ 0 < n / 40 ^ k)
    ∧ (n < 2 ^ 32 →
        (∀ k, k < 7 → (n / 40 ^ k) % 40 ≠ 11 ∧ (n / 40 ^ k) % 40 ≠ 12
          ∧ (n / 40 ^ k) % 40 ≠ 13) →
        ssdv_encode_callsign (ssdv_decode_callsign b) = n) := by
  subst hb
  refine ⟨rfl, ssdv_decode_callsign_code_getD _,
    ssdv_decode_callsign_code_length _, fun h32 hd => ?_⟩
  have hall : ∀ k,
      ((b.foldl (fun a x => a * 256 + x) 0) / 40 ^ k) % 40 ≠ 11
      ∧ ((b.foldl (fun a x => a * 256 + x) 0) / 40 ^ k) % 40 ≠ 12
      ∧ ((b.foldl (fun a x => a * 256 + x) 0) / 40 ^ k) % 40 ≠ 13 := by
    intro k
    by_cases hk : k < 7
    · exact hd k hk
    · have hz : (b.foldl (fun a x => a * 256 + x) 0) / 40 ^ k = 0 := by
        apply Nat.div_eq_of_lt
        calc b.foldl (fun a x => a * 256 + x) 0 < 2 ^ 32 := h32
          _ ≤ 40 ^ 7 := by norm_num
          _ ≤ 40 ^ k := Nat.pow_le_pow_right (by norm_num) (by omega)
      rw [hz]
      exact ⟨by norm_num, by norm_num, by norm_num⟩
  exact ssdv_encode_decode_code _ hall

/-- Witness for C7 (amended): the field `[0,0,2,62]` (big-endian 574,
base-40 digits 14, 14) decodes to `"AA"` and re-encodes to 574. -/
theorem ssdv_callsign_decode_amended_witness :
    ssdv_decode_callsign [0, 0, 2, 62] = "AA"
    ∧ ssdv_encode_callsign (ssdv_decode_callsign [0, 0, 2, 62]) = 574 := by
  have h := ssdv_callsign_decode_amended [0, 0, 2, 62] 574 (by decide)
  exact ⟨by decide, h.2.2.2 (by decide) (by decide)⟩

/-! ## Text message decoder (`decode_text_message`) -/

/-- The record returned by a successful `decode_text_message`:
declared length field, 16-bit message id, and the ASCII text. -/
structure TextMessage where
  len : Nat
  id : Nat
  text : String
  deriving DecidableEq

/-- `decode_text_message(packet)`: `len = packet[1]`,
`id = packet[2:4]` big-endian, `text = packet[4:4+len].decode('ascii')`.
The Python slice silently truncates to the bytes available; the strict
ASCII decode (and the fixed-offset unpacking when fewer than 4 bytes
are present) raises, which the function catches and converts into the
error dictionary. -/
def decode_text_message (packet : List Nat) : DecodeResult TextMessage :=
  if packet.length < 4 then .err "Could not decode message packet."
  else
    let len := packet.getD 1 0
    let textBytes := (packet.drop 4).take len
    if textBytes.all (· < 128) then
      .ok ⟨len, packet.getD 2 0 * 256 + packet.getD 3 0,
        String.mk (textBytes.map Char.ofNat)⟩
    else .err "Could not decode message packet."

/-- C10: on a text-message packet of at least 4 bytes whose declared
length exceeds the bytes present after the 4-byte header,
`decode_text_message` still returns a success record whose text is
silently truncated to the bytes available; for a well-formed packet the
text is exactly the declared number of bytes starting at offset 4,
ignoring padding beyond them.  The returned text length is
`min len (packet.length - 4)`. -/
theorem decode_text_message_truncates (p : List Nat) (h4 : 4 ≤ p.length)
    (hascii : ∀ b ∈ (p.drop 4).take (p.getD 1 0), b < 128) :
    decode_text_message p
        = .ok ⟨p.getD 1 0, p.getD 2 0 * 256 + p.getD 3 0,
            String.mk (((p.drop 4).take (p.getD 1 0)).map Char.ofNat)⟩
    ∧ ((p.drop 4).take (p.getD 1 0)).length
        = min (p.getD 1 0) (p.length - 4) := by
  constructor
  · rw [decode_text_message, if_neg (by omega)]
    rw [if_pos (by simpa [List.all_eq_true] using hascii)]
  · simp [List.length_take]

/-- Witness for C10: the packet `[0, 5, 0, 7, 104, 105]` declares a
5-byte text but carries only 2 bytes after the header; decoding
succeeds with id 7 and the truncated text `"hi"` of length
`min 5 2 = 2`. -/
theorem decode_text_message_truncates_witness :
    decode_text_message [0, 5, 0, 7, 104, 105] = .ok ⟨5, 7, "hi"⟩
    ∧ (([0, 5, 0, 7, 104, 105] : List Nat).drop 4).take 5
        = [104, 105] := by
  have h := decode_text_message_truncates [0, 5, 0, 7, 104, 105]
    (by norm_num) (by decide)
  exact ⟨h.1, by decide⟩

/-! ## Telemetry decoders (`gps_telemetry_decoder`,
`orientation_telemetry_decoder`, `image_telemetry_decoder`)

The packed fields are parsed at fixed big-endian offsets
(`struct.unpack`).  IEEE-754 single-precision fields are decoded to
their exact rational values (every finite float is a rational, so this
is lossless); infinities and NaN are explicit constructors.  Python's
`round(x, n)` is modelled as exact decimal rounding (nearest multiple
of `10^-n`, ties to even), and `int(x)` as truncation toward zero —
which raises on NaN/infinity, giving the decoder an error path.
Dynamically typed dictionary values that can be either an int or a
float are modelled by `PyVal`. -/

/-- A Python float: a finite value (exact rational), a signed infinity,
or NaN. -/
inductive PyFloat where
  | finite (q : ℚ)
  | inf (neg : Bool)
  | nan
  deriving DecidableEq

/-- A dynamically typed Python number stored in a decoded-telemetry
dictionary: either an `int` or a `float`. -/
inductive PyVal where
  | int (z : Int)
  | float (f : PyFloat)
  deriving DecidableEq

/-- Decode a 32-bit word as an IEEE-754 single-precision float
(big-endian `f` field of `struct.unpack`). -/
def f32_from_bits (w : Nat) : PyFloat :=
  let sign : Nat := w / 2 ^ 31 % 2
  let exp : Nat := w / 2 ^ 23 % 256
  let frac : Nat := w % 2 ^ 23
  if exp = 255 then
    if frac = 0 then .inf (sign = 1) else .nan
  else
    let mag : ℚ :=
      if exp = 0 then (frac : ℚ) / 2 ^ 149
      else ((2 ^ 23 + frac : Nat) : ℚ) * (2 : ℚ) ^ ((exp : Int) - 150)
    .finite (if sign = 1 then -mag else mag)

/-- Python `round(q, ndigits)` on an exact value: nearest multiple of
`10^-ndigits`, ties to even. -/
def roundPy (ndigits : Nat) (q : ℚ) : ℚ :=
  let m := q * 10 ^ ndigits
  let f := Rat.floor m
  let r := m - f
  let z : Int :=
    if r < 1 / 2 then f
    else if r > 1 / 2 then f + 1
    else if f % 2 = 0 then f else f + 1
  (z : ℚ) / 10 ^ ndigits

/-- `round(x, n)` on a Python float: finite values are rounded,
infinities and NaN pass through unchanged. -/
def roundPyF (ndigits : Nat) : PyFloat → PyFloat
  | .finite q => .finite (roundPy ndigits q)
  | x => x

/-- Python `int(q)` on a finite float value: truncation toward zero. -/
def pyIntTrunc (q : ℚ) : Int :=
  if q < 0 then -Rat.floor (-q) else Rat.floor q

/-- Big-endian unsigned integer from `len` bytes at offset `off`. -/
def beBytes (p : List Nat) (off len : Nat) : Nat :=
  ((p.drop off).take len).foldl (fun a b => a * 256 + b) 0

/-- The byte at offset `i` (packets are length-checked before use). -/
def byteAt (p : List Nat) (i : Nat) : Nat := p.getD i 0

/-- Signed byte (`b` field of `struct.unpack`): two's complement. -/
def i8_from_byte (b : Nat) : Int :=
  if b < 128 then (b : Int) else (b : Int) - 256

/-- `gps_weeksecondstoutc(week, seconds, leap)`: the produced UTC
timestamp, represented as seconds elapsed since the GPS epoch
1980-01-06T00:00:00 (`epoch + week*7 days + seconds − leap seconds`;
the Python code renders this instant as an ISO string). -/
def gps_weeksecondstoutc (gpsweek : Nat) (gpsseconds : ℚ)
    (leapseconds : Nat) : ℚ :=
  (gpsweek : ℚ) * 7 * 86400 + gpsseconds - (leapseconds : ℚ)

/-- The human-readable GPS fix description. -/
def gpsFix_str (n : Nat) : String :=
  if n = 0 then "No Fix"
  else if n = 2 then "2D Fix"
  else if n = 3 then "3D Fix"
  else if n = 5 then "Time Only"
  else "Unknown (" ++ toString n ++ ")"

/-- The human-readable dynamic-model description. -/
def dynamic_model_str (n : Nat) : String :=
  if n = 0 then "Portable"
  else if n = 1 then "Not Used"
  else if n = 2 then "Stationary"
  else if n = 3 then "Pedestrian"
  else if n = 4 then "Automotive"
  else if n = 5 then "Sea"
  else if n = 6 then "Airborne 1G"
  else if n = 7 then "Airborne 2G"
  else if n = 8 then "Airborne 4G"
  else "Unknown"

/-- The record returned by a successful `gps_telemetry_decoder`.
`timestamp` is the derived UTC instant as seconds since the GPS epoch
(see `gps_weeksecondstoutc`). -/
structure GpsData where
  week : Nat
  iTOW : ℚ
  leapS : Nat
  latitude : PyFloat
  longitude : PyFloat
  altitude : PyFloat
  ground_speed : PyFloat
  heading : PyFloat
  ascent_rate : PyFloat
  numSV : Nat
  gpsFix : Nat
  dynamic_model : Nat
  radio_temp : PyVal
  cpu_temp : PyVal
  cpu_speed : Nat
  load_avg_1 : PyVal
  load_avg_5 : PyVal
  load_avg_15 : PyVal
  disk_percent : PyVal
  lens_position : PyVal
  sensor_temp : PyVal
  focus_fom : PyVal
  timestamp : ℚ
  fix_desc : String
  model_desc : String
  deriving DecidableEq

/-- `WENET_PACKET_LENGTHS.GPS_TELEMETRY`. -/
def GPS_TELEMETRY_LENGTH : Nat := 73

/-- `gps_telemetry_decoder(packet)` over the layout
`>BHIBffffffBBBffHfffffff` (73 bytes): under-length input is the
invalid-length error; over-length input is clipped to 73 bytes;
`focus_fom = int(data[22])` raises on a NaN/infinite float, caught and
returned as the could-not-decode error; when the `cpu_speed` subfield
decodes to 21845 (an `0x55`-padded extension region from an old
transmitter), all extension fields are overridden with fixed
sentinels. -/
def gps_telemetry_decoder (packet : List Nat) : DecodeResult GpsData :=
  if packet.length < GPS_TELEMETRY_LENGTH then
    .err "GPS Telemetry Packet has invalid length."
  else
    let p := packet.take GPS_TELEMETRY_LENGTH
    match f32_from_bits (beBytes p 69 4) with
    | .inf _ => .err "Could not decode GPS telemetry packet."
    | .nan => .err "Could not decode GPS telemetry packet."
    | .finite qfocus =>
      let week := beBytes p 1 2
      let iTOW : ℚ := (beBytes p 3 4 : ℚ) / 1000
      let leapS := byteAt p 7
      let g : GpsData :=
        { week := week
          iTOW := iTOW
          leapS := leapS
          latitude := f32_from_bits (beBytes p 8 4)
          longitude := f32_from_bits (beBytes p 12 4)
          altitude := f32_from_bits (beBytes p 16 4)
          ground_speed := f32_from_bits (beBytes p 20 4)
          heading := f32_from_bits (beBytes p 24 4)
          ascent_rate := f32_from_bits (beBytes p 28 4)
          numSV := byteAt p 32
          gpsFix := byteAt p 33
          dynamic_model := byteAt p 34
          radio_temp := .float (roundPyF 1 (f32_from_bits (beBytes p 35 4)))
          cpu_temp := .float (roundPyF 1 (f32_from_bits (beBytes p 39 4)))
          cpu_speed := beBytes p 43 2
          load_avg_1 := .float (roundPyF 3 (f32_from_bits (beBytes p 45 4)))
          load_avg_5 := .float (roundPyF 3 (f32_from_bits (beBytes p 49 4)))
          load_avg_15 := .float (roundPyF 3 (f32_from_bits (beBytes p 53 4)))
          disk_percent := .float (roundPyF 3 (f32_from_bits (beBytes p 57 4)))
          lens_position := .float (roundPyF 4 (f32_from_bits (beBytes p 61 4)))
          sensor_temp := .float (roundPyF 1 (f32_from_bits (beBytes p 65 4)))
          focus_fom := .int (pyIntTrunc qfocus)
          timestamp := gps_weeksecondstoutc week iTOW leapS
          fix_desc := gpsFix_str (byteAt p 33)
          model_desc := dynamic_model_str (byteAt p 34) }
      if beBytes p 43 2 = 21845 then
        .ok { g with
          radio_temp := .float (.finite (-999))
          cpu_temp := .float (.finite (-999))
          cpu_speed := 0
          load_avg_1 := .int 0
          load_avg_5 := .int 0
          load_avg_15 := .int 0
          disk_percent := .float (.finite (-1))
          lens_position := .float (.finite (-999))
          sensor_temp := .float (.finite (-999))
          focus_fom := .float (.finite (-999)) }
      else
        .ok g

/-- The record returned by a successful `orientation_telemetry_decoder`. -/
structure OrientationData where
  week : Nat
  iTOW : ℚ
  leapS : Nat
  timestamp : ℚ
  sys_status : Nat
  sys_error : Nat
  sys_cal : Nat
  gyro_cal : Nat
  accel_cal : Nat
  magnet_cal : Nat
  temp : Int
  euler_heading : PyFloat
  euler_roll : PyFloat
  euler_pitch : PyFloat
  quaternion_x : PyFloat
  quaternion_y : PyFloat
  quaternion_z : PyFloat
  quaternion_w : PyFloat
  deriving DecidableEq

/-- `WENET_PACKET_LENGTHS.ORIENTATION_TELEMETRY`. -/
def ORIENTATION_TELEMETRY_LENGTH : Nat := 43

/-- `orientation_telemetry_decoder(packet)` over the layout
`>BHIBBBBBBBbfffffff` (43 bytes): under-length input is the
invalid-length error; over-length input is clipped to 43 bytes; the
fixed-offset unpack of a 43-byte buffer cannot fail. -/
def orientation_telemetry_decoder (packet : List Nat) :
    DecodeResult OrientationData :=
  if packet.length < ORIENTATION_TELEMETRY_LENGTH then
    .err "Orientation Telemetry Packet has invalid length."
  else
    let p := packet.take ORIENTATION_TELEMETRY_LENGTH
    let week := beBytes p 1 2
    let iTOW : ℚ := (beBytes p 3 4 : ℚ) / 1000
    let leapS := byteAt p 7
    .ok
      { week := week
        iTOW := iTOW
        leapS := leapS
        timestamp := gps_weeksecondstoutc week iTOW leapS
        sys_status := byteAt p 8
        sys_error := byteAt p 9
        sys_cal := byteAt p 10
        gyro_cal := byteAt p 11
        accel_cal := byteAt p 12
        magnet_cal := byteAt p 13
        temp := i8_from_byte (byteAt p 14)
        euler_heading := f32_from_bits (beBytes p 15 4)
        euler_roll := f32_from_bits (beBytes p 19 4)
        euler_pitch := f32_from_bits (beBytes p 23 4)
        quaternion_x := f32_from_bits (beBytes p 27 4)
        quaternion_y := f32_from_bits (beBytes p 31 4)
        quaternion_z := f32_from_bits (beBytes p 35 4)
        quaternion_w := f32_from_bits (beBytes p 39 4) }

/-- Strict UTF-8 decoding of a byte list (Python `bytes.decode()`),
`none` on any encoding error: stray continuation bytes, over-long
forms, surrogates, and values beyond U+10FFFF are all rejected. -/
def utf8Decode? : List Nat → Option (List Char)
  | [] => some []
  | b :: rest =>
    if b < 0x80 then
      (utf8Decode? rest).map (fun cs => Char.ofNat b :: cs)
    else if 0xC2 ≤ b ∧ b ≤ 0xDF then
      match rest with
      | c1 :: rest2 =>
        if 0x80 ≤ c1 ∧ c1 ≤ 0xBF then
          (utf8Decode? rest2).map
            (fun cs => Char.ofNat ((b - 0xC0) * 64 + (c1 - 0x80)) :: cs)
        else none
      | [] => none
    else if 0xE0 ≤ b ∧ b ≤ 0xEF then
      match rest with
      | c1 :: c2 :: rest3 =>
        if (if b = 0xE0 then 0xA0 else 0x80) ≤ c1
            ∧ c1 ≤ (if b = 0xED then 0x9F else 0xBF)
            ∧ 0x80 ≤ c2 ∧ c2 ≤ 0xBF then
          (utf8Decode? rest3).map
            (fun cs =>
              Char.ofNat ((b - 0xE0) * 4096 + (c1 - 0x80) * 64 + (c2 - 0x80))
                :: cs)
        else none
      | _ => none
    else if 0xF0 ≤ b ∧ b ≤ 0xF4 then
      match rest with
      | c1 :: c2 :: c3 :: rest4 =>
        if (if b = 0xF0 then 0x90 else 0x80) ≤ c1
            ∧ c1 ≤ (if b = 0xF4 then 0x8F else 0xBF)
            ∧ 0x80 ≤ c2 ∧ c2 ≤ 0xBF ∧ 0x80 ≤ c3 ∧ c3 ≤ 0xBF then
          (utf8Decode? rest4).map
            (fun cs =>
              Char.ofNat ((b - 0xF0) * 262144 + (c1 - 0x80) * 4096
                  + (c2 - 0x80) * 64 + (c3 - 0x80)) :: cs)
        else none
      | _ => none
    else none

/-- The record returned by a successful `image_telemetry_decoder`. -/
structure ImageData where
  sequence_number : Nat
  callsign : String
  image_id : Nat
  week : Nat
  iTOW : ℚ
  leapS : Nat
  latitude : PyFloat
  longitude : PyFloat
  altitude : PyFloat
  ground_speed : PyFloat
  heading : PyFloat
  ascent_rate : PyFloat
  numSV : Nat
  gpsFix : Nat
  dynamic_model : Nat
  timestamp : ℚ
  fix_desc : String
  model_desc : String
  sys_status : Nat
  sys_error : Nat
  sys_cal : Nat
  gyro_cal : Nat
  accel_cal : Nat
  magnet_cal : Nat
  temp : Int
  euler_heading : PyFloat
  euler_roll : PyFloat
  euler_pitch : PyFloat
  quaternion_x : PyFloat
  quaternion_y : PyFloat
  quaternion_z : PyFloat
  quaternion_w : PyFloat
  deriving DecidableEq

/-- `WENET_PACKET_LENGTHS.IMAGE_TELEMETRY`. -/
def IMAGE_TELEMETRY_LENGTH : Nat := 80

/-- `image_telemetry_decoder(packet)` over the layout
`>BH7pBHIBffffffBBBBBBBBBbfffffff` (80 bytes): under-length input is
the invalid-length error; over-length input is clipped to 80 bytes; the
`7p` Pascal-string callsign takes `min(packet[3], 6)` bytes from offset
4, and `data[2].decode()` raises on invalid UTF-8, caught and returned
as the could-not-decode error. -/
def image_telemetry_decoder (packet : List Nat) : DecodeResult ImageData :=
  if packet.length < IMAGE_TELEMETRY_LENGTH then
    .err "Image Telemetry Packet has invalid length."
  else
    let p := packet.take IMAGE_TELEMETRY_LENGTH
    match utf8Decode? ((p.drop 4).take (min (byteAt p 3) 6)) with
    | none => .err "Could not decode Image telemetry packet."
    | some cs =>
      let week := beBytes p 11 2
      let iTOW : ℚ := (beBytes p 13 4 : ℚ) / 1000
      let leapS := byteAt p 17
      .ok
        { sequence_number := beBytes p 1 2
          callsign := String.mk cs
          image_id := byteAt p 10
          week := week
          iTOW := iTOW
          leapS := leapS
          latitude := f32_from_bits (beBytes p 18 4)
          longitude := f32_from_bits (beBytes p 22 4)
          altitude := f32_from_bits (beBytes p 26 4)
          ground_speed := f32_from_bits (beBytes p 30 4)
          heading := f32_from_bits (beBytes p 34 4)
          ascent_rate := f32_from_bits (beBytes p 38 4)
          numSV := byteAt p 42
          gpsFix := byteAt p 43
          dynamic_model := byteAt p 44
          timestamp := gps_weeksecondstoutc week iTOW leapS
          fix_desc := gpsFix_str (byteAt p 43)
          model_desc := dynamic_model_str (byteAt p 44)
          sys_status := byteAt p 45
          sys_error := byteAt p 46
          sys_cal := byteAt p 47
          gyro_cal := byteAt p 48
          accel_cal := byteAt p 49
          magnet_cal := byteAt p 50
          temp := i8_from_byte (byteAt p 51)
          euler_heading := f32_from_bits (beBytes p 52 4)
          euler_roll := f32_from_bits (beBytes p 56 4)
          euler_pitch := f32_from_bits (beBytes p 60 4)
          quaternion_x := f32_from_bits (beBytes p 64 4)
          quaternion_y := f32_from_bits (beBytes p 68 4)
          quaternion_z := f32_from_bits (beBytes p 72 4)
          quaternion_w := f32_from_bits (beBytes p 76 4) }

/-- C4: for each fixed-length telemetry decoder (GPS 73, Orientation
43, Image 80): an input strictly shorter than the declared length
returns the explicit invalid-length decode error; an input strictly
longer decodes identically to its prefix of the declared length; and
every outcome is returned as a value (`ok` or `err`) — the decoder
never raises. -/
theorem telemetry_decoders_length_handling (p : List Nat) :
    (p.length < 73 →
        gps_telemetry_decoder p
          = .err "GPS Telemetry Packet has invalid length.")
    ∧ (73 < p.length →
        gps_telemetry_decoder p = gps_telemetry_decoder (p.take 73))
    ∧ (p.length < 43 →
        orientation_telemetry_decoder p
          = .err "Orientation Telemetry Packet has invalid length.")
    ∧ (43 < p.length →
        orientation_telemetry_decoder p
          = orientation_telemetry_decoder (p.take 43))
    ∧ (p.length < 80 →
        image_telemetry_decoder p
          = .err "Image Telemetry Packet has invalid length.")
    ∧ (80 < p.length →
        image_telemetry_decoder p = image_telemetry_decoder (p.take 80))
    ∧ ((∃ r, gps_telemetry_decoder p = .ok r)
        ∨ ∃ m, gps_telemetry_decoder p = .err m)
    ∧ ((∃ r, orientation_telemetry_decoder p = .ok r)
        ∨ ∃ m, orientation_telemetry_decoder p = .err m)
    ∧ ((∃ r, image_telemetry_decoder p = .ok r)
        ∨ ∃ m, image_telemetry_decoder p = .err m) := by
  refine ⟨fun h => ?_, fun h => ?_, fun h => ?_, fun h => ?_, fun h => ?_,
    fun h => ?_, ?_, ?_, ?_⟩
  · unfold gps_telemetry_decoder
    simp only [GPS_TELEMETRY_LENGTH]
    rw [if_pos h]
  · have h1 : ¬(p.length < 73) := by omega
    have h2 : ¬((p.take (73 : Nat)).length < 73) := by
      simp only [List.length_take]
      omega
    have ht : (p.take (73 : Nat)).take (73 : Nat) = p.take 73 := by
      simp [List.take_take]
    unfold gps_telemetry_decoder
    simp only [GPS_TELEMETRY_LENGTH]
    rw [if_neg h1, if_neg h2, ht]
  · unfold orientation_telemetry_decoder
    simp only [ORIENTATION_TELEMETRY_LENGTH]
    rw [if_pos h]
  · have h1 : ¬(p.length < 43) := by omega
    have h2 : ¬((p.take (43 : Nat)).length < 43) := by
      simp only [List.length_take]
      omega
    have ht : (p.take (43 : Nat)).take (43 : Nat) = p.take 43 := by
      simp [List.take_take]
    unfold orientation_telemetry_decoder
    simp only [ORIENTATION_TELEMETRY_LENGTH]
    rw [if_neg h1, if_neg h2, ht]
  · unfold image_telemetry_decoder
    simp only [IMAGE_TELEMETRY_LENGTH]
    rw [if_pos h]
  · have h1 : ¬(p.length < 80) := by omega
    have h2 : ¬((p.take (80 : Nat)).length < 80) := by
      simp only [List.length_take]
      omega
    have ht : (p.take (80 : Nat)).take (80 : Nat) = p.take 80 := by
      simp [List.take_take]
    unfold image_telemetry_decoder
    simp only [IMAGE_TELEMETRY_LENGTH]
    rw [if_neg h1, if_neg h2, ht]
  · rcases hg : gps_telemetry_decoder p with v | m
    · exact Or.inl ⟨v, rfl⟩
    · exact Or.inr ⟨m, rfl⟩
  · rcases ho : orientation_telemetry_decoder p with v | m
    · exact Or.inl ⟨v, rfl⟩
    · exact Or.inr ⟨m, rfl⟩
  · rcases hi : image_telemetry_decoder p with v | m
    · exact Or.inl ⟨v, rfl⟩
    · exact Or.inr ⟨m, rfl⟩

/-- Witness for C4: a 10-byte input yields the invalid-length error for
all three decoders, and over-length all-`0x55` inputs decode exactly as
their declared-length prefixes. -/
theorem telemetry_decoders_length_handling_witness :
    gps_telemetry_decoder (List.replicate 10 0)
        = .err "GPS Telemetry Packet has invalid length."
    ∧ gps_telemetry_decoder (List.replicate 80 0x55)
        = gps_telemetry_decoder ((List.replicate 80 0x55).take 73)
    ∧ orientation_telemetry_decoder (List.replicate 10 0)
        = .err "Orientation Telemetry Packet has invalid length."
    ∧ orientation_telemetry_decoder (List.replicate 80 0x55)
        = orientation_telemetry_decoder ((List.replicate 80 0x55).take 43)
    ∧ image_telemetry_decoder (List.replicate 10 0)
        = .err "Image Telemetry Packet has invalid length."
    ∧ image_telemetry_decoder (List.replicate 90 0x55)
        = image_telemetry_decoder ((List.replicate 90 0x55).take 80) :=
  ⟨(telemetry_decoders_length_handling _).1
      (by norm_num [List.length_replicate]),
    (telemetry_decoders_length_handling _).2.1
      (by norm_num [List.length_replicate]),
    (telemetry_decoders_length_handling _).2.2.1
      (by norm_num [List.length_replicate]),
    (telemetry_decoders_length_handling _).2.2.2.1
      (by norm_num [List.length_replicate]),
    (telemetry_decoders_length_handling _).2.2.2.2.1
      (by norm_num [List.length_replicate]),
    (telemetry_decoders_length_handling _).2.2.2.2.2.1
      (by norm_num [List.length_replicate])⟩

/-- C5: every successfully decoded GPS Telemetry packet whose raw
`cpu_speed` subfield (big-endian u16 at offset 43) equals 21845 — the
pattern of an `0x55`-filled extension region — has all its extension
fields overridden to fixed sentinels: −999.0 for `radio_temp`,
`cpu_temp`, `sensor_temp`, `lens_position` and `focus_fom`; −1.0 for
`disk_percent`; integer 0 for `cpu_speed` and the load averages. -/
theorem gps_legacy_sentinel_override (p : List Nat) (r : GpsData)
    (hok : gps_telemetry_decoder p = .ok r)
    (hcpu : beBytes (p.take 73) 43 2 = 21845) :
    r.radio_temp = .float (.finite (-999))
    ∧ r.cpu_temp = .float (.finite (-999))
    ∧ r.sensor_temp = .float (.finite (-999))
    ∧ r.lens_position = .float (.finite (-999))
    ∧ r.focus_fom = .float (.finite (-999))
    ∧ r.disk_percent = .float (.finite (-1))
    ∧ r.cpu_speed = 0
    ∧ r.load_avg_1 = .int 0
    ∧ r.load_avg_5 = .int 0
    ∧ r.load_avg_15 = .int 0 := by
  simp only [gps_telemetry_decoder, GPS_TELEMETRY_LENGTH] at hok
  rw [hcpu] at hok
  simp only [if_pos rfl] at hok
  split at hok
  · simp at hok
  · split at hok
    · simp at hok
    · simp at hok
    · injection hok with h
      subst h
      exact ⟨rfl, rfl, rfl, rfl, rfl, rfl, rfl, rfl, rfl, rfl⟩

/-- The C5 witness packet: a valid GPS telemetry header (week 2290,
iTOW 200000 ms, leapS 18, zero position fields) followed by an
`0x55`-filled extension region (offsets 35–72). -/
def c5_packet : List Nat :=
  [1, 8, 242, 0, 3, 13, 64, 18] ++ List.replicate 27 0
    ++ List.replicate 38 0x55

/-- The record `gps_telemetry_decoder` returns for `c5_packet`. -/
def c5_record : GpsData :=
  { week := 2290
    iTOW := 200
    leapS := 18
    latitude := .finite 0
    longitude := .finite 0
    altitude := .finite 0
    ground_speed := .finite 0
    heading := .finite 0
    ascent_rate := .finite 0
    numSV := 0
    gpsFix := 0
    dynamic_model := 0
    radio_temp := .float (.finite (-999))
    cpu_temp := .float (.finite (-999))
    cpu_speed := 0
    load_avg_1 := .int 0
    load_avg_5 := .int 0
    load_avg_15 := .int 0
    disk_percent := .float (.finite (-1))
    lens_position := .float (.finite (-999))
    sensor_temp := .float (.finite (-999))
    focus_fom := .float (.finite (-999))
    timestamp := 2290 * 7 * 86400 + 200 - 18
    fix_desc := "No Fix"
    model_desc := "Portable" }

set_option maxRecDepth 40000 in
set_option maxHeartbeats 1000000 in
/-- Witness for C5: the `0x55`-padded packet decodes successfully with
every extension field holding its sentinel, not the raw padding. -/
theorem gps_legacy_sentinel_override_witness :
    gps_telemetry_decoder c5_packet = .ok c5_record
    ∧ c5_record.radio_temp = .float (.finite (-999))
    ∧ c5_record.cpu_speed = 0
    ∧ c5_record.load_avg_1 = .int 0
    ∧ c5_record.disk_percent = .float (.finite (-1)) := by
  have h := gps_legacy_sentinel_override c5_packet c5_record
    (by decide) (by decide)
  exact ⟨by decide, h.1, h.2.2.2.2.2.2.1, h.2.2.2.2.2.2.2.1, h.2.2.2.2.2.1⟩

/-- C6: every successfully decoded GPS Telemetry packet carries the
derived timestamp `GPS epoch + week×7 days + iTOW ms / 1000 s − leapS s`
(expressed as seconds since the 1980-01-06T00:00:00 GPS epoch), where
week, iTOW and leapS are the raw header fields of the packet. -/
theorem gps_timestamp_utc (p : List Nat) (r : GpsData)
    (hok : gps_telemetry_decoder p = .ok r) :
    r.timestamp = (beBytes (p.take 73) 1 2 : ℚ) * 7 * 86400
        + (beBytes (p.take 73) 3 4 : ℚ) / 1000
        - (byteAt (p.take 73) 7 : ℚ)
    ∧ r.week = beBytes (p.take 73) 1 2
    ∧ r.iTOW = (beBytes (p.take 73) 3 4 : ℚ) / 1000
    ∧ r.leapS = byteAt (p.take 73) 7 := by
  simp only [gps_telemetry_decoder, GPS_TELEMETRY_LENGTH] at hok
  split at hok
  · simp at hok
  · split at hok
    · simp at hok
    · simp at hok
    · split at hok <;>
      · injection hok with h
        subst h
        exact ⟨rfl, rfl, rfl, rfl⟩

/-- The C6 witness packet: week 2290 (`0x08F2`), iTOW 200000 ms
(`0x00030D40`), leapS 18, all remaining fields zero. -/
def c6_packet : List Nat :=
  [1, 8, 242, 0, 3, 13, 64, 18] ++ List.replicate 65 0

/-- The record `gps_telemetry_decoder` returns for `c6_packet`. -/
def c6_record : GpsData :=
  { week := 2290
    iTOW := 200
    leapS := 18
    latitude := .finite 0
    longitude := .finite 0
    altitude := .finite 0
    ground_speed := .finite 0
    heading := .finite 0
    ascent_rate := .finite 0
    numSV := 0
    gpsFix := 0
    dynamic_model := 0
    radio_temp := .float (.finite 0)
    cpu_temp := .float (.finite 0)
    cpu_speed := 0
    load_avg_1 := .float (.finite 0)
    load_avg_5 := .float (.finite 0)
    load_avg_15 := .float (.finite 0)
    disk_percent := .float (.finite 0)
    lens_position := .float (.finite 0)
    sensor_temp := .float (.finite 0)
    focus_fom := .int 0
    timestamp := 2290 * 7 * 86400 + 200 - 18
    fix_desc := "No Fix"
    model_desc := "Portable" }

set_option maxRecDepth 40000 in
set_option maxHeartbeats 1000000 in
/-- Witness for C6: the packet with week=2290, iTOW=200000 ms, leapS=18
decodes to exactly the GPS epoch plus 2290×7 days plus 200 seconds
minus 18 seconds. -/
theorem gps_timestamp_utc_witness :
    gps_telemetry_decoder c6_packet = .ok c6_record
    ∧ c6_record.timestamp = 2290 * 7 * 86400 + 200 - 18 := by
  have h := gps_timestamp_utc c6_packet c6_record (by decide)
  refine ⟨by decide, ?_⟩
  rw [h.1]
  decide

end Wenet
